import Mathlib

/-!
Verification development for the camel repository: a shallow embedding of
the tool-call protocol engine (src/camel/core/agent_interface.py), the tool
registry (src/src/core/tool_registry.py), the cyclic orchestrator
(src/autonomous_dev.py) and the guardian daemon
(src/dashboard/guardian_daemon.py), with theorems settling the frozen
claims about them.

Python strings are modelled as `List Char`; machine-level details that the
claims depend on (text-mode universal-newline translation, Python's
polymorphic `in` operator, the exact regular expression used for fenced
tool blocks) are embedded faithfully.
-/

namespace Camel

/-! ## Python string primitives -/

/-- Python's `\s` character class (`str.strip()` and `re` whitespace):
space, tab, newline, carriage return, form feed, vertical tab. -/
def isPySpace (c : Char) : Bool :=
  c = ' ' || c = '\t' || c = '\n' || c = '\x0d' || c = '\x0c' || c = '\x0b'

/-- Python `str.strip()` with no argument: drop whitespace from both ends. -/
def pyStrip (s : List Char) : List Char :=
  ((s.dropWhile isPySpace).reverse.dropWhile isPySpace).reverse

/-- Python `old in s` substring test: some suffix of `s` starts with `old`. -/
def pyContains (old : List Char) : List Char → Bool
  | [] => old.isEmpty
  | c :: rest => old.isPrefixOf (c :: rest) || pyContains old rest

/-- Python `s.replace(old, new, 1)`: replace the leftmost occurrence of
`old` (the empty `old` matches at position 0, inserting `new` in front,
exactly as in CPython). -/
def replaceFirst (old new : List Char) : List Char → List Char
  | [] => if old.isEmpty then new else []
  | c :: rest =>
    if old.isPrefixOf (c :: rest) then new ++ (c :: rest).drop old.length
    else c :: replaceFirst old new rest

/-! ## JSON values and `json.loads`

`json.loads` as called by `parse_tool_calls` and the tool registry.  The
numeric value of a JSON number is never consumed by any verified code
path, so a number is carried as its lexeme.  CPython's default decoder
also accepts the constants `NaN`, `Infinity` and `-Infinity`; they decode
to floats and are represented as number lexemes here. -/

inductive Json where
  | null : Json
  | bool (b : Bool) : Json
  | num (lexeme : List Char) : Json
  | str (s : List Char) : Json
  | arr (elems : List Json) : Json
  | obj (entries : List (List Char × Json)) : Json

/-- JSON structural whitespace (RFC 8259): space, tab, newline, return. -/
def isJsonWs (c : Char) : Bool :=
  c = ' ' || c = '\t' || c = '\n' || c = '\x0d'

def skipWs (s : List Char) : List Char :=
  s.dropWhile isJsonWs

def hexVal (c : Char) : Option Nat :=
  if '0' ≤ c ∧ c ≤ '9' then some (c.toNat - '0'.toNat)
  else if 'a' ≤ c ∧ c ≤ 'f' then some (c.toNat - 'a'.toNat + 10)
  else if 'A' ≤ c ∧ c ≤ 'F' then some (c.toNat - 'A'.toNat + 10)
  else none

/-- Body of a JSON string after the opening quote: strict mode (raw
control characters below 0x20 are rejected), with the escape sequences of
RFC 8259.  A `\uXXXX` escape becomes the character of that code point. -/
def parseStrBody (fuel : Nat) (s : List Char) : Option (List Char × List Char) :=
  match fuel with
  | 0 => none
  | fuel' + 1 =>
    match s with
    | [] => none
    | '"' :: rest => some ([], rest)
    | '\\' :: esc =>
      match esc with
      | '"' :: rest => (parseStrBody fuel' rest).map (fun p => ('"' :: p.1, p.2))
      | '\\' :: rest => (parseStrBody fuel' rest).map (fun p => ('\\' :: p.1, p.2))
      | '/' :: rest => (parseStrBody fuel' rest).map (fun p => ('/' :: p.1, p.2))
      | 'b' :: rest => (parseStrBody fuel' rest).map (fun p => ('\x08' :: p.1, p.2))
      | 'f' :: rest => (parseStrBody fuel' rest).map (fun p => ('\x0c' :: p.1, p.2))
      | 'n' :: rest => (parseStrBody fuel' rest).map (fun p => ('\n' :: p.1, p.2))
      | 'r' :: rest => (parseStrBody fuel' rest).map (fun p => ('\x0d' :: p.1, p.2))
      | 't' :: rest => (parseStrBody fuel' rest).map (fun p => ('\t' :: p.1, p.2))
      | 'u' :: h1 :: h2 :: h3 :: h4 :: rest =>
        match hexVal h1, hexVal h2, hexVal h3, hexVal h4 with
        | some a, some b, some c, some d =>
          (parseStrBody fuel' rest).map
            (fun p => (Char.ofNat (((a * 16 + b) * 16 + c) * 16 + d) :: p.1, p.2))
        | _, _, _, _ => none
      | _ => none
    | c :: rest =>
      if c.toNat < 32 then none
      else (parseStrBody fuel' rest).map (fun p => (c :: p.1, p.2))

def takeDigits (s : List Char) : List Char × List Char :=
  (s.takeWhile Char.isDigit, s.dropWhile Char.isDigit)

/-- JSON number grammar `-?(0|[1-9][0-9]*)(\.[0-9]+)?([eE][+-]?[0-9]+)?`,
returning the lexeme.  Returns `none` when no valid number starts here. -/
def parseNumber (s : List Char) : Option (List Char × List Char) :=
  let (sign, s1) := match s with
    | '-' :: rest => (['-'], rest)
    | _ => (([] : List Char), s)
  match s1 with
  | '0' :: rest =>
    (parseNumTail rest).map (fun p => (sign ++ '0' :: p.1, p.2))
  | c :: _ =>
    if c.isDigit ∧ c ≠ '0' then
      let (ds, rest) := takeDigits s1
      (parseNumTail rest).map (fun p => (sign ++ ds ++ p.1, p.2))
    else none
  | [] => none
where
  parseNumTail (s : List Char) : Option (List Char × List Char) :=
    let (frac, s2) := match s with
      | '.' :: rest =>
        match takeDigits rest with
        | ([], _) => (none, s)
        | (ds, r) => (some ('.' :: ds), r)
      | _ => (some [], s)
    match frac with
    | none => none
    | some fracLex =>
      match s2 with
      | e :: rest =>
        if e = 'e' ∨ e = 'E' then
          let (esign, rest2) := match rest with
            | '+' :: r => (['+'], r)
            | '-' :: r => (['-'], r)
            | _ => (([] : List Char), rest)
          match takeDigits rest2 with
          | ([], _) => none
          | (ds, r) => some (fracLex ++ e :: esign ++ ds, r)
        else some (fracLex, s2)
      | [] => some (fracLex, s2)

mutual

/-- One JSON value at the head of `s` (no leading whitespace skip). -/
def parseValue (fuel : Nat) (s : List Char) : Option (Json × List Char) :=
  match fuel with
  | 0 => none
  | fuel' + 1 =>
    match s with
    | '{' :: rest => parseObjBody fuel' (skipWs rest) true
    | '[' :: rest => parseArrBody fuel' (skipWs rest) true
    | '"' :: rest => (parseStrBody fuel' rest).map (fun p => (Json.str p.1, p.2))
    | 't' :: 'r' :: 'u' :: 'e' :: rest => some (Json.bool true, rest)
    | 'f' :: 'a' :: 'l' :: 's' :: 'e' :: rest => some (Json.bool false, rest)
    | 'n' :: 'u' :: 'l' :: 'l' :: rest => some (Json.null, rest)
    | 'N' :: 'a' :: 'N' :: rest => some (Json.num ['N', 'a', 'N'], rest)
    | 'I' :: 'n' :: 'f' :: 'i' :: 'n' :: 'i' :: 't' :: 'y' :: rest =>
      some (Json.num "Infinity".data, rest)
    | '-' :: 'I' :: 'n' :: 'f' :: 'i' :: 'n' :: 'i' :: 't' :: 'y' :: rest =>
      some (Json.num "-Infinity".data, rest)
    | _ => (parseNumber s).map (fun p => (Json.num p.1, p.2))

/-- Members of an object after `{` (whitespace already skipped);
`first = true` when no member has been read yet. -/
def parseObjBody (fuel : Nat) (s : List Char) (first : Bool) :
    Option (Json × List Char) :=
  match fuel with
  | 0 => none
  | fuel' + 1 =>
    match first, s with
    | true, '}' :: rest => some (Json.obj [], rest)
    | _, '"' :: rest =>
      match parseStrBody fuel' rest with
      | none => none
      | some (key, afterKey) =>
        match skipWs afterKey with
        | ':' :: afterColon =>
          match parseValue fuel' (skipWs afterColon) with
          | none => none
          | some (v, afterVal) =>
            match skipWs afterVal with
            | ',' :: afterComma =>
              match parseObjBody fuel' (skipWs afterComma) false with
              | some (Json.obj entries, rest') =>
                some (Json.obj ((key, v) :: entries), rest')
              | _ => none
            | '}' :: rest' => some (Json.obj [(key, v)], rest')
            | _ => none
        | _ => none
    | _, _ => none

/-- Elements of an array after `[` (whitespace already skipped). -/
def parseArrBody (fuel : Nat) (s : List Char) (first : Bool) :
    Option (Json × List Char) :=
  match fuel with
  | 0 => none
  | fuel' + 1 =>
    match first, s with
    | true, ']' :: rest => some (Json.arr [], rest)
    | _, _ =>
      match parseValue fuel' s with
      | none => none
      | some (v, afterVal) =>
        match skipWs afterVal with
        | ',' :: afterComma =>
          match parseArrBody fuel' (skipWs afterComma) false with
          | some (Json.arr elems, rest') => some (Json.arr (v :: elems), rest')
          | _ => none
        | ']' :: rest' => some (Json.arr [v], rest')
        | _ => none

end

/-- `json.loads`: one JSON document with optional surrounding whitespace;
trailing non-whitespace input is a decode error (`none`). -/
def json_loads (s : List Char) : Option Json :=
  match parseValue (s.length + 1) (skipWs s) with
  | some (v, rest) => if (skipWs rest).isEmpty then some v else none
  | none => none

/-! ## ToolCallProtocol: `AgentInterface.parse_tool_calls`

The Python code runs `re.findall(r'```tool\s*\n?(.*?)\n?```', response,
re.DOTALL)` and then, for each captured body, `json.loads(match.strip())`
followed by the test `"tool" in tool_data`; only `json.JSONDecodeError`
is caught.  The scanner below reproduces the regex: at each position it
tries the literal `` ```tool ``, then the greedy `\s*` (the optional
`\n?` after a maximal `\s*` is vacuous), then the lazy body, which stops
at the first `` ``` `` optionally preceded by one newline; on a match the
scan resumes after the closing fence, otherwise at the next character. -/

def backtick : Char := '\x60'

def fenceOpen : List Char := [backtick, backtick, backtick, 't', 'o', 'o', 'l']

def fenceClose : List Char := [backtick, backtick, backtick]

/-- The lazy `(.*?)\n?``` ` part: shortest body such that the rest starts
with `` ``` `` after at most one newline; `none` when no closing fence
exists. -/
def lazyBody : List Char → Option (List Char × List Char)
  | [] => none
  | c :: rest =>
    if fenceClose.isPrefixOf (c :: rest) then some ([], (c :: rest).drop 3)
    else if c = '\n' ∧ fenceClose.isPrefixOf rest then some ([], rest.drop 3)
    else
      match lazyBody rest with
      | some (b, r) => some (c :: b, r)
      | none => none

/-- Try the whole fence pattern at the head of `s`: captured body and the
rest of the input after the closing fence. -/
def matchFence (s : List Char) : Option (List Char × List Char) :=
  if fenceOpen.isPrefixOf s then lazyBody ((s.drop 7).dropWhile isPySpace)
  else none

/-- `re.findall` for the fence pattern, with explicit fuel (one unit per
input position) so that the function reduces definitionally. -/
def findToolFuel : Nat → List Char → List (List Char)
  | 0, _ => []
  | _ + 1, [] => []
  | fuel + 1, c :: rest =>
    match matchFence (c :: rest) with
    | some (b, r) => b :: findToolFuel fuel r
    | none => findToolFuel fuel rest

/-- All captured fence bodies of `response`, in document order. -/
def findTool (response : List Char) : List (List Char) :=
  findToolFuel response.length response

/-- Exceptions that escape `parse_tool_calls`: `"tool" in tool_data`
raises `TypeError` when `json.loads` produced a non-container
(number, boolean or null). -/
inductive PyErr where
  | typeError : PyErr
deriving DecidableEq

/-- Python's `"tool" == elem` for a JSON-decoded array element. -/
def isToolStr : Json → Bool
  | Json.str s => s = "tool".data
  | _ => false

/-- Python `"tool" in tool_data` on a decoded JSON value: key lookup on a
dict, membership on a list, substring on a str, `TypeError` otherwise. -/
def toolMember : Json → Except PyErr Bool
  | Json.obj entries => Except.ok (entries.any (fun kv => kv.1 = "tool".data))
  | Json.arr elems => Except.ok (elems.any isToolStr)
  | Json.str s => Except.ok (pyContains "tool".data s)
  | _ => Except.error PyErr.typeError

/-- The per-match loop body of `parse_tool_calls`: decode failures are
skipped (`except json.JSONDecodeError: continue`); a `TypeError` from the
membership test propagates and aborts the whole call. -/
def collectToolCalls : List (List Char) → Except PyErr (List Json)
  | [] => Except.ok []
  | m :: ms =>
    match json_loads (pyStrip m) with
    | none => collectToolCalls ms
    | some v =>
      match toolMember v with
      | Except.error e => Except.error e
      | Except.ok true => (collectToolCalls ms).map (fun tl => v :: tl)
      | Except.ok false => collectToolCalls ms

/-- `AgentInterface.parse_tool_calls` (src/camel/core/agent_interface.py,
lines 120-136), including the uncaught `TypeError` path. -/
def parse_tool_calls (response : List Char) : Except PyErr (List Json) :=
  collectToolCalls (findTool response)

/-! ## ConversationLoop: `AgentInterface.query`

`query` runs at most `max_tool_iterations` rounds.  Each round posts the
built prompt to the backend; the outcome of one `client.post` (plus
`response.json()`) is abstracted as a `Transport` value: either an
exception (`httpx` error, connection failure, malformed response body) or
a status code with the `response` text of the returned document.  The
backend is a function of the round index, which subsumes the prompt that
the code builds from history and earlier tool results (the prompt is sent
to the backend and influences nothing else).

Control flow of one round, as in the source (lines 213-263):
- an exception reaches the outer `except Exception` and `query` returns
  `None`, whatever text was accumulated;
- a status other than 200 returns the accumulated text, or `None` when it
  is empty;
- a 200 response with no parsed tool calls appends the text and returns;
- a `TypeError` escaping `parse_tool_calls` reaches the outer handler:
  `None`;
- otherwise the text plus one `[Tool … executed]` marker per call is
  appended and the loop continues; a parsed call that is not a dict makes
  `tool_call.get` raise `AttributeError` (both inside `execute_tool` and
  in the marker f-string), again producing `None`.  Tool execution itself
  never raises: `ToolRegistry.execute` converts every failure to an error
  dict. -/

inductive Transport where
  | exc : Transport
  | resp (status : Nat) (body : List Char) : Transport

def isObj : Json → Bool
  | Json.obj _ => true
  | _ => false

/-- `dict.get(key)` on a decoded JSON object (duplicate keys: the last
occurrence wins, as in CPython's dict building); `None` when missing,
and on a non-dict the caller raises, handled at its call sites. -/
def objGet (v : Json) (key : List Char) : Json :=
  match v with
  | Json.obj entries =>
    match (entries.filter (fun kv => kv.1 = key)).getLast? with
    | some kv => kv.2
    | none => Json.null
  | _ => Json.null

/-- Python `str()` of a decoded JSON value as interpolated into the
`[Tool … executed]` marker.  Scalars are rendered exactly; for the
container cases (which no verified property inspects) the rendering is a
fixed placeholder. -/
def pyToStr : Json → List Char
  | Json.str s => s
  | Json.null => "None".data
  | Json.bool true => "True".data
  | Json.bool false => "False".data
  | Json.num lx => lx
  | Json.arr _ => "[...]".data
  | Json.obj _ => "{...}".data

/-- The text appended for one executed tool call:
`f"[Tool \x7btool_call.get('tool')\x7d executed]\n"`. -/
def toolMarker (call : Json) : List Char :=
  "[Tool ".data ++ pyToStr (objGet call "tool".data) ++ " executed]\n".data

def toolMarkers (calls : List Json) : List Char :=
  (calls.map toolMarker).flatten

/-- The loop of `query` (src/camel/core/agent_interface.py, lines
213-263).  Arguments: the backend, the current round index, the rounds
remaining out of `max_tool_iterations`, and the accumulated
`full_response`.  Returns the value of the Python call together with the
number of model calls that were issued. -/
def queryGo (backend : Nat → Transport) :
    Nat → Nat → List Char → Option (List Char) × Nat
  | _, 0, acc => (if acc.isEmpty then none else some acc, 0)
  | i, rem + 1, acc =>
    match backend i with
    | Transport.exc => (none, 1)
    | Transport.resp status body =>
      if status ≠ 200 then (if acc.isEmpty then none else some acc, 1)
      else
        match parse_tool_calls body with
        | Except.error _ => (none, 1)
        | Except.ok [] => (some (acc ++ body), 1)
        | Except.ok calls =>
          if calls.all isObj then
            let out := queryGo backend (i + 1) rem
              (acc ++ body ++ "\n\n".data ++ toolMarkers calls)
            (out.1, out.2 + 1)
          else (none, 1)

/-- `AgentInterface.query` with iteration cap `maxIter`
(`max_tool_iterations`, default 5): result text and number of model
calls. -/
def query (backend : Nat → Transport) (maxIter : Nat) :
    Option (List Char) × Nat :=
  queryGo backend 0 maxIter []

/-! ## ToolRegistry file tools (src/src/core/tool_registry.py)

The filesystem is a map from paths to stored byte content.  All three
file tools open files in text mode with the default `newline=None`:
reading applies universal-newline translation, turning each carriage
return or carriage-return/newline pair into a newline, and writing
translates each newline to `os.linesep`, which on the deployment platform
(Linux) is a single newline. -/

def FS := String → Option (List Char)

def FS.update (fs : FS) (path : String) (content : List Char) : FS :=
  fun p => if p = path then some content else fs p

/-- Universal-newline decoding performed by `open(path, 'r')` with the
default `newline=None`. -/
def decodeNewlines : List Char → List Char
  | [] => []
  | [c] => if c = '\x0d' then ['\n'] else [c]
  | c :: d :: rest =>
    if c = '\x0d' then
      if d = '\n' then '\n' :: decodeNewlines rest
      else '\n' :: decodeNewlines (d :: rest)
    else c :: decodeNewlines (d :: rest)

/-- `os.linesep` on the deployment platform (Linux). -/
def osLinesep : List Char := ['\n']

/-- Translation performed by `open(path, 'w')` with the default
`newline=None`: each newline becomes `os.linesep` (the identity here). -/
def encodeWrite (content : List Char) : List Char :=
  content.flatMap (fun c => if c = '\n' then osLinesep else [c])

/-- `f.readlines()`: split after each newline, keeping the line ends;
a final segment without a newline is kept as a last line. -/
def pyReadlinesAux (acc : List Char) : List Char → List (List Char)
  | [] => if acc.isEmpty then [] else [acc.reverse]
  | c :: rest =>
    if c = '\n' then (acc.reverse ++ ['\n']) :: pyReadlinesAux [] rest
    else pyReadlinesAux (c :: acc) rest

def pyReadlines (s : List Char) : List (List Char) :=
  pyReadlinesAux [] s

/-- The result dict of a file tool, with the keys the source functions
put in it. -/
structure ToolResult where
  success : Bool
  content : Option (List Char)
  lines : Option Nat
  path : Option String
  error : Option String
deriving DecidableEq

def toolOkRead (content : List Char) (lines : Nat) : ToolResult :=
  { success := true, content := some content, lines := some lines,
    path := none, error := none }

def toolOkPath (path : String) : ToolResult :=
  { success := true, content := none, lines := none,
    path := some path, error := none }

def toolFail (msg : String) : ToolResult :=
  { success := false, content := none, lines := none,
    path := none, error := some msg }

/-- `ToolRegistry.read_file` (lines 52-69).  `offset` and `limit` slice
the line list only when truthy: an offset of 0, a limit of `None` and a
limit of 0 all leave the list alone, exactly as `if offset:` and
`if limit:` do.  A missing file raises inside the `try`, producing the
error result whose message is the exception text. -/
def read_file (fs : FS) (path : String) (offset : Nat) (limit : Option Nat) :
    ToolResult :=
  match fs path with
  | none => toolFail "No such file or directory"
  | some stored =>
    let lines0 := pyReadlines (decodeNewlines stored)
    let lines1 := if offset ≠ 0 then lines0.drop offset else lines0
    let lines2 :=
      match limit with
      | some l => if l ≠ 0 then lines1.take l else lines1
      | none => lines1
    toolOkRead lines2.flatten lines2.length

/-- `ToolRegistry.write_file` (lines 71-79): create parents (invisible in
this model), overwrite, return the success dict with the path. -/
def write_file (fs : FS) (path : String) (content : List Char) :
    FS × ToolResult :=
  (fs.update path (encodeWrite content), toolOkPath path)

/-- `ToolRegistry.edit_file` (lines 81-97): read, test `old_text in
content`, replace the first occurrence, write back.  When the text is
absent the failure dict is returned before any write. -/
def edit_file (fs : FS) (path : String) (old new : List Char) :
    FS × ToolResult :=
  match fs path with
  | none => (fs, toolFail "No such file or directory")
  | some stored =>
    let content := decodeNewlines stored
    if pyContains old content then
      (fs.update path (encodeWrite (replaceFirst old new content)),
       toolOkPath path)
    else (fs, toolFail "Text not found")

/-! ## Orchestrator (src/autonomous_dev.py)

`AutonomousDevelopmentSystem.run_development_cycle` (lines 863-949):
increment the cycle counter, pick the active priority tier round-robin,
fall back to the critical tier when the active tier is empty, select at
most two tasks, spawn one agent per selection, await all of them under
the 600 s `asyncio.wait_for`, then walk every spawned agent: count it as
completed or failed by its status at that moment and insert one row into
`agent_execution_log` for it via `log_agent_completion`.

The awaited execution is the only non-deterministic part: it is
abstracted by a function `snap` giving, for each spawned agent index, the
agent fields when the `await` returns (a straggler still inside
`execute_task` when the timeout fires has status `"running"`, its
`end_time` still unset).  Wall-clock readings are supplied as parameters
(`spawnEpoch` for the `int(time.time())` in the agent id, `now` for the
row creation time). -/

structure DevTask where
  name : String
  description : String
  priority : String
  files : List String
  agent_type : String
  requirements : List String
deriving DecidableEq

/-- The static catalog built by `load_development_tasks`
(lines 192-791). -/
def load_development_tasks : List DevTask := [
  { name := "model_switching", description := "Add clean menu for switching between available Ollama models", priority := "critical", files := ["src/main.py", "src/ui/menus.py"], agent_type := "Solver", requirements := ["Hidden menu accessible via keyboard shortcut (Ctrl+M)", "List all available models from Ollama API", "Show current model in status bar", "Minimal UI footprint - dropdown or overlay menu", "Persist selection across sessions"] },
  { name := "server_switching", description := "Add capability to switch between Ollama server endpoints", priority := "critical", files := ["src/main.py", "src/core/agent_interface.py"], agent_type := "Solver", requirements := ["Hidden menu accessible via Ctrl+S", "Define servers in config/servers.yaml", "Test connection before switching", "Show server status in status bar", "Clean UX - minimal space usage"] },
  { name := "tools_menu", description := "Create intuitive menu showing available tools and their usage", priority := "critical", files := ["src/main.py", "src/ui/menus.py"], agent_type := "Solver", requirements := ["Accessible via Ctrl+/ or clicking 'Tools' in sidebar", "Show all 7 tools with descriptions and examples", "Copy-paste ready tool syntax", "Searchable/filterable tool list", "Overlay panel that doesn't disrupt main UI"] },
  { name := "conversation_window", description := "Extend conversation area with scrolling and history", priority := "critical", files := ["src/main.py"], agent_type := "Solver", requirements := ["ScrollableContainer for unlimited conversation history", "Auto-scroll to bottom on new messages", "Scroll up to view history", "Message bubbles with timestamps", "Clear conversation button (Ctrl+L)"] },
  { name := "startup_prompt", description := "Initialize Camel with configurable startup prompt", priority := "critical", files := ["src/main.py", "config/startup.txt"], agent_type := "Solver", requirements := ["Load startup prompt from config/startup.txt", "Display in conversation on launch", "User can edit config/startup.txt for custom initialization", "Optional: skip with --no-init flag"] },
  { name := "file_tree", description := "Interactive file tree browser in sidebar", priority := "high", files := ["src/ui/file_tree.py", "src/main.py"], agent_type := "Solver", requirements := ["Tree view of project directory", "Expand/collapse folders", "Click to view file contents", "Show git status indicators (modified, untracked)", "Filter by file type (.py, .js, etc)"] },
  { name := "code_editor", description := "Inline code editor with syntax highlighting", priority := "high", files := ["src/ui/editor.py", "src/main.py"], agent_type := "Solver", requirements := ["TextArea widget with syntax highlighting", "Open files from file tree", "Save changes with Ctrl+S", "Line numbers and current line highlight", "Support Python, JavaScript, YAML, Markdown"] },
  { name := "command_palette", description := "Quick command access like VS Code command palette", priority := "high", files := ["src/ui/command_palette.py", "src/main.py"], agent_type := "Solver", requirements := ["Fuzzy search all commands (Ctrl+Shift+P)", "Recent commands at top", "Show keyboard shortcuts next to commands", "Filter as you type", "Execute command on Enter"] },
  { name := "agent_streaming", description := "Stream agent responses token-by-token", priority := "high", files := ["src/core/agent_interface.py", "src/main.py"], agent_type := "Solver", requirements := ["Use Ollama streaming API", "Display tokens as they arrive", "Show 'thinking...' indicator", "Cancel mid-stream with Esc", "Smooth scrolling as text appears"] },
  { name := "conversation_export", description := "Export conversation history to markdown/JSON", priority := "high", files := ["src/tools/export.py", "src/main.py"], agent_type := "Solver", requirements := ["Export to .md with formatted code blocks", "Export to .json with full metadata", "Save to ~/camel-exports/ directory", "Include timestamps and model used", "Ctrl+E to trigger export"] },
  { name := "multi_tab_conversations", description := "Multiple conversation tabs like browser tabs", priority := "medium", files := ["src/ui/tabs.py", "src/main.py"], agent_type := "Solver", requirements := ["Create new tab with Ctrl+T", "Switch tabs with Ctrl+1-9", "Each tab has independent conversation", "Tab shows first message as title", "Close tab with Ctrl+W"] },
  { name := "code_execution", description := "Execute Python/shell code directly in TUI", priority := "medium", files := ["src/tools/executor.py", "src/main.py"], agent_type := "Solver", requirements := ["Detect code blocks in agent responses", "Run button appears next to executable code", "Execute in sandboxed subprocess", "Show output inline with ANSI colors", "Timeout after 30 seconds"] },
  { name := "vim_mode", description := "Vim keybindings for navigation", priority := "medium", files := ["src/ui/vim_bindings.py", "src/main.py"], agent_type := "Solver", requirements := ["Toggle with :set vim / :set normal", "hjkl navigation in chat history", "dd to delete message", "yy to copy message", "Visual mode for selection"] },
  { name := "git_integration", description := "Git operations from within TUI", priority := "medium", files := ["src/tools/git.py", "src/main.py"], agent_type := "Solver", requirements := ["Show git status in file tree", "Stage/unstage files", "Commit with message (Ctrl+G)", "View diff in overlay", "Push/pull with status display"] },
  { name := "search_history", description := "Search through all past conversations", priority := "medium", files := ["src/tools/search.py", "src/main.py"], agent_type := "Solver", requirements := ["Full-text search across all saved conversations", "Filter by date range, model, keywords", "Regex support for advanced queries", "Jump to matching conversation", "Ctrl+F to open search"] },
  { name := "template_system", description := "Reusable prompt templates", priority := "medium", files := ["src/tools/templates.py", "src/main.py"], agent_type := "Solver", requirements := ["Define templates in config/templates.yaml", "Variables like {{filename}}, {{language}}", "Quick insert from menu", "Common templates: code review, debug, explain", "Custom user templates supported"] },
  { name := "context_files", description := "Attach files as context to conversation", priority := "medium", files := ["src/tools/context.py", "src/main.py"], agent_type := "Solver", requirements := ["Drag-drop files or browse to attach", "Show attached files in sidebar", "Auto-include in next prompt", "Support code, text, markdown files", "Clear context with button"] },
  { name := "keyboard_shortcuts_help", description := "Overlay showing all keyboard shortcuts", priority := "medium", files := ["src/ui/shortcuts.py", "src/main.py"], agent_type := "Solver", requirements := ["Press ? to show shortcuts overlay", "Grouped by category (Navigation, Editing, Tools)", "Search/filter shortcuts", "Click shortcut to execute command", "Printable cheat sheet"] },
  { name := "themes", description := "Customizable color themes", priority := "low", files := ["src/ui/themes.py", "src/main.py"], agent_type := "Solver", requirements := ["Built-in themes: GitHub Dark, Dracula, Nord, Monokai", "Load from config/theme.yaml", "Live preview when switching", "Custom theme support", "Syntax highlighting matches theme"] },
  { name := "metrics_dashboard", description := "Usage analytics and statistics", priority := "low", files := ["src/ui/metrics.py", "src/main.py"], agent_type := "Solver", requirements := ["Tokens used per conversation", "Most used models", "Response time graphs", "Conversation length trends", "Export metrics to CSV"] },
  { name := "voice_input", description := "Voice-to-text for hands-free interaction", priority := "high", files := ["src/tools/voice.py", "src/main.py"], agent_type := "Solver", requirements := ["Push-to-talk with Ctrl+Space", "Uses Whisper API or local STT", "Show recording indicator", "Auto-submit after speech ends", "Fallback to typing if STT unavailable"] },
  { name := "agent_personas", description := "Switchable agent personalities and expertise", priority := "high", files := ["src/core/personas.py", "src/main.py"], agent_type := "Solver", requirements := ["Personas: Senior Dev, Architect, Security Expert, Teacher, Debugger", "Each has custom system prompt", "Switch persona mid-conversation", "Show active persona in status bar", "Custom personas via config/personas.yaml"] },
  { name := "memory_system", description := "Long-term memory across conversations", priority := "high", files := ["src/core/memory.py", "src/main.py"], agent_type := "Solver", requirements := ["Vector DB for semantic memory (ChromaDB/FAISS)", "Auto-save important facts from conversations", "Retrieve relevant context automatically", "User can flag messages as 'remember this'", "Clear/manage memory in settings"] },
  { name := "web_search_tool", description := "Agent can search the web for current info", priority := "high", files := ["src/tools/web_search.py", "src/main.py"], agent_type := "Solver", requirements := ["Integrate DuckDuckGo/SearxNG API", "Agent triggers search when needed", "Show 'searching web...' indicator", "Display sources inline", "Cache results for session"] },
  { name := "rag_codebase", description := "RAG over entire codebase for context", priority := "high", files := ["src/tools/rag.py", "src/main.py"], agent_type := "Solver", requirements := ["Index project files on startup", "Semantic search across codebase", "Auto-include relevant files in context", "Show which files were retrieved", "Update index on file changes"] },
  { name := "multi_agent_collab", description := "Multiple specialized agents working together", priority := "medium", files := ["src/core/multi_agent.py", "src/main.py"], agent_type := "Solver", requirements := ["Spawn multiple agents for complex tasks", "Planner agent breaks down tasks", "Executor agents work in parallel", "Reviewer agent validates output", "Show agent collaboration tree"] },
  { name := "diff_viewer", description := "Side-by-side diff viewer for code changes", priority := "medium", files := ["src/ui/diff.py", "src/main.py"], agent_type := "Solver", requirements := ["Compare before/after when agent suggests edits", "Syntax highlighted diff", "Accept/reject individual hunks", "Apply all changes at once", "Undo/redo support"] },
  { name := "screenshot_ocr", description := "Paste screenshot and extract code/text", priority := "medium", files := ["src/tools/ocr.py", "src/main.py"], agent_type := "Solver", requirements := ["Paste image from clipboard", "OCR with Tesseract or vision model", "Extract code blocks automatically", "Send extracted text to agent", "Preview OCR result before sending"] },
  { name := "task_orchestrator", description := "AutoGPT-style autonomous task execution", priority := "medium", files := ["src/core/orchestrator.py", "src/main.py"], agent_type := "Solver", requirements := ["Give high-level goal, agent executes steps", "Agent can use all tools autonomously", "Show execution plan before starting", "Step-by-step progress display", "Pause/resume/cancel execution"] },
  { name := "documentation_generator", description := "Auto-generate docs from codebase", priority := "medium", files := ["src/tools/docgen.py", "src/main.py"], agent_type := "Solver", requirements := ["Scan project for undocumented functions", "Generate docstrings with AI", "Create README sections automatically", "API documentation from code", "Export as Markdown/HTML"] },
  { name := "test_generator", description := "Automatically generate unit tests", priority := "medium", files := ["src/tools/testgen.py", "src/main.py"], agent_type := "Solver", requirements := ["Analyze function and generate pytest tests", "Edge cases and error conditions", "Mock external dependencies", "Run tests and show results", "Update tests based on failures"] },
  { name := "refactor_assistant", description := "AI-powered code refactoring", priority := "medium", files := ["src/tools/refactor.py", "src/main.py"], agent_type := "Solver", requirements := ["Detect code smells automatically", "Suggest refactoring improvements", "Preview changes in diff viewer", "Apply refactorings safely", "Verify tests still pass after refactor"] },
  { name := "dependency_analyzer", description := "Visualize and manage dependencies", priority := "low", files := ["src/tools/deps.py", "src/main.py"], agent_type := "Solver", requirements := ["Parse requirements.txt/package.json", "Show dependency graph visualization", "Check for outdated packages", "Security vulnerability scanning", "Suggest safe upgrades"] },
  { name := "notebook_mode", description := "Jupyter-style notebook interface", priority := "low", files := ["src/ui/notebook.py", "src/main.py"], agent_type := "Solver", requirements := ["Mix code, output, and markdown cells", "Execute cells independently", "Maintain kernel state across cells", "Export to .ipynb format", "Rich output (plots, tables, HTML)"] },
  { name := "session_replay", description := "Record and replay entire coding sessions", priority := "low", files := ["src/tools/replay.py", "src/main.py"], agent_type := "Solver", requirements := ["Record all commands and outputs", "Replay at adjustable speed", "Export as video/GIF", "Share session as shareable link", "Annotate key moments"] },
  { name := "plugin_system", description := "Extensible plugin architecture", priority := "low", files := ["src/core/plugins.py", "src/main.py"], agent_type := "Solver", requirements := ["Load plugins from ~/.camel/plugins/", "Plugins can add tools, commands, themes", "Hot reload without restart", "Plugin marketplace/registry", "Sandboxed execution for safety"] },
  { name := "collaboration_mode", description := "Real-time collaboration like Google Docs", priority := "low", files := ["src/core/collab.py", "src/main.py"], agent_type := "Solver", requirements := ["WebSocket server for sync", "Multiple users share same session", "See cursors and edits in real-time", "Chat with collaborators", "Session sharing via link"] },
  { name := "smart_autocomplete", description := "AI-powered autocomplete for prompts", priority := "high", files := ["src/ui/autocomplete.py", "src/main.py"], agent_type := "Solver", requirements := ["Suggest completions as you type", "Learn from your prompting patterns", "Common patterns: 'explain', 'debug', 'refactor'", "File/function name completion", "Tab to accept suggestion"] },
  { name := "inline_documentation", description := "Hover over code to see docs inline", priority := "medium", files := ["src/ui/inline_docs.py", "src/main.py"], agent_type := "Solver", requirements := ["Hover over function/class names", "Show docstring in popup", "Link to full documentation", "Type hints and signatures", "Works with custom and stdlib code"] },
  { name := "error_explainer", description := "AI explains errors and suggests fixes", priority := "high", files := ["src/tools/error_explain.py", "src/main.py"], agent_type := "Solver", requirements := ["Detect errors in terminal output", "Auto-explain what went wrong", "Suggest concrete fixes", "One-click to apply fix", "Learn from past errors"] },
  { name := "performance_profiler", description := "Profile code and suggest optimizations", priority := "medium", files := ["src/tools/profiler.py", "src/main.py"], agent_type := "Solver", requirements := ["Run cProfile on Python code", "Visualize hotspots with flamegraph", "AI suggests optimization strategies", "Compare before/after benchmarks", "Memory profiling included"] },
  { name := "code_snippets", description := "Personal snippet library with AI search", priority := "medium", files := ["src/tools/snippets.py", "src/main.py"], agent_type := "Solver", requirements := ["Save frequently used code snippets", "Semantic search to find snippets", "Variables/placeholders in snippets", "Import from GitHub gists", "Share snippets with team"] }]

/-- Fields of a `DevelopmentAgent` when the cycle's `await` returns. -/
structure AgentSnap where
  status : String
  start_time : Option String
  end_time : Option String
  outputsJson : List Char
deriving DecidableEq

/-- One row of `agent_execution_log` as inserted by
`log_agent_completion` (lines 838-861): missing times become
`"unknown"`, the serialized outputs are capped at 10000 characters. -/
structure ExecRecord where
  agentId : String
  task : String
  startTime : String
  endTime : String
  status : String
  outputs : List Char
  createdAt : String
deriving DecidableEq

/-- ASCII lowering, the effect of `str.lower()` on the catalog's ASCII
agent-type names. -/
def lowerChar (c : Char) : Char :=
  if 'A' ≤ c ∧ c ≤ 'Z' then Char.ofNat (c.toNat + 32) else c

def asciiLower (s : String) : String :=
  String.mk (s.data.map lowerChar)

/-- `f"{task['agent_type'].lower()}_{task['name']}_{int(time.time())}"`. -/
def mkAgentId (t : DevTask) (epoch : Nat) : String :=
  asciiLower t.agent_type ++ "_" ++ t.name ++ "_" ++ toString epoch

def recordOf (aid : String) (t : DevTask) (s : AgentSnap) (now : String) :
    ExecRecord :=
  { agentId := aid
    task := t.name
    startTime := s.start_time.getD "unknown"
    endTime := s.end_time.getD "unknown"
    status := s.status
    outputs := s.outputsJson.take 10000
    createdAt := now }

/-- `priority_order[(cycle_count - 1) % len(priority_order)]`, with
Python's flooring `%` on a possibly negative left operand. -/
def currentPriority (cycleCount : Nat) : String :=
  ["critical", "high", "medium", "low"].getD
    ((((cycleCount : Int) - 1) % 4).toNat) "critical"

structure CycleOutcome where
  cycleCount : Nat
  priorityTier : String
  selected : List DevTask
  persisted : List ExecRecord
  completed : Nat
  failed : Nat
deriving DecidableEq

/-- `run_development_cycle` (lines 863-949) for one cycle:
`prevCycleCount` is the counter before the `self.cycle_count += 1`. -/
def run_development_cycle (prevCycleCount : Nat) (tasks : List DevTask)
    (snap : Nat -> AgentSnap) (spawnEpoch : Nat -> Nat) (now : String) :
    CycleOutcome :=
  let cycleCount := prevCycleCount + 1
  let current := currentPriority cycleCount
  let priorityTasks := tasks.filter (fun t => t.priority = current)
  let pool :=
    if priorityTasks.isEmpty then
      tasks.filter (fun t => t.priority = "critical")
    else priorityTasks
  let selected := pool.take 2
  let agents := selected.enum.map
    (fun p => (mkAgentId p.2 (spawnEpoch p.1), p.2, snap p.1))
  let persisted := agents.map (fun a => recordOf a.1 a.2.1 a.2.2 now)
  let completed :=
    (agents.filter (fun a => a.2.2.status = "completed")).length
  { cycleCount := cycleCount
    priorityTier := current
    selected := selected
    persisted := persisted
    completed := completed
    failed := agents.length - completed }

/-! ## Guardian (src/dashboard/guardian_daemon.py)

One iteration of the `while True` loop in `main` (lines 142-177).  The
inputs are the observations the iteration makes: whether `pgrep` found an
`autonomous_dev.py` process, the `created_at` of the newest execution row
(already converted, as the code does, into an age in seconds relative to
`datetime.now(UTC)`), and the completion/failure counts feeding the
purely logged health score. -/

/-- `get_last_activity` (lines 47-68): `SELECT created_at ... ORDER BY
created_at DESC LIMIT 1` over the rows of `agent_execution_log`, i.e. the
lexicographically greatest `created_at` of the stored TEXT column;
`None` on an empty table. -/
def get_last_activity (createdAts : List String) : Option String :=
  createdAts.max?

/-- `restart_threshold_minutes = 15`. -/
def restartThresholdMinutes : ℚ := 15

/-- `get_system_health`'s score:
`completions / (completions + failures) * 100`, or 100 with no recent
records (lines 120-126). -/
def health_score (recentCompletions recentFailures : Nat) : ℚ :=
  if 0 < recentCompletions + recentFailures then
    (recentCompletions : ℚ) / ((recentCompletions : ℚ) + recentFailures) * 100
  else 100

/-- What one guardian iteration did. -/
structure GuardianStep where
  restarted : Bool
  warnedNoActivity : Bool
  loggedHealth : Option ℚ
deriving DecidableEq

/-- One iteration of the guardian loop (lines 142-177): restart when the
process is missing; otherwise restart when the newest record is older
than the threshold; with no record at all, log a warning and continue to
the health report; the health score is computed and logged but feeds no
decision. -/
def guardian_iteration (running : Bool) (ageSeconds : Option ℚ)
    (recentCompletions recentFailures : Nat) : GuardianStep :=
  if running = false then
    { restarted := true, warnedNoActivity := false, loggedHealth := none }
  else
    match ageSeconds with
    | some age =>
      if age / 60 > restartThresholdMinutes then
        { restarted := true, warnedNoActivity := false, loggedHealth := none }
      else
        { restarted := false, warnedNoActivity := false,
          loggedHealth := some (health_score recentCompletions recentFailures) }
    | none =>
      { restarted := false, warnedNoActivity := true,
        loggedHealth := some (health_score recentCompletions recentFailures) }

/-- The age observation the loop derives from `get_last_activity`:
`datetime.now(UTC) - last_activity`, `None` when there is no row.
`ageOf` abstracts the timestamp subtraction as a clock function. -/
def ageOf (lastActivity : Option String) (clockAge : String -> Rat) :
    Option Rat :=
  lastActivity.map clockAge


/-! ## Theorems: orchestrator claims -/

/-- Helper for C6: inside `currentPriority` the Python index expression
equals the natural-number residue for 1-based cycle numbers. -/
theorem currentPriority_index (n : Nat) (hn : 1 ≤ n) :
    (((n : Int) - 1) % 4).toNat = (n - 1) % 4 := by
  omega

/-- C7: in every cycle at most the concurrency cap (2) of work items is
selected and spawned, however many are eligible, so the number of agents
running concurrently inside the cycle (equivalently, rows persisted for
it) never exceeds 2. -/
theorem cycle_selection_cap (prev : Nat) (tasks : List DevTask)
    (snap : Nat -> AgentSnap) (spawnEpoch : Nat -> Nat) (now : String) :
    (run_development_cycle prev tasks snap spawnEpoch now).selected.length ≤ 2 ∧
    (run_development_cycle prev tasks snap spawnEpoch now).persisted.length ≤ 2 := by
  unfold run_development_cycle
  simp only [List.length_map, List.length_take, List.enum_length]
  omega

/-- C6: for every 1-based cycle number n the active tier is
tier[(n-1) mod 4] from {critical, high, medium, low}; an empty active
tier falls back to the critical tier, a non-empty one supplies the
selection itself. -/
theorem tier_rotation_and_fallback (n : Nat) (hn : 1 ≤ n) :
    (n % 4 = 1 → currentPriority n = "critical") ∧
    (n % 4 = 2 → currentPriority n = "high") ∧
    (n % 4 = 3 → currentPriority n = "medium") ∧
    (n % 4 = 0 → currentPriority n = "low") ∧
    (∀ (tasks : List DevTask) snap spawnEpoch now,
      tasks.filter (fun t => t.priority = currentPriority n) = [] →
      (run_development_cycle (n - 1) tasks snap spawnEpoch now).selected
        = (tasks.filter (fun t => t.priority = "critical")).take 2) ∧
    (∀ (tasks : List DevTask) snap spawnEpoch now,
      tasks.filter (fun t => t.priority = currentPriority n) ≠ [] →
      (run_development_cycle (n - 1) tasks snap spawnEpoch now).selected
        = (tasks.filter (fun t => t.priority = currentPriority n)).take 2) := by
  have hidx := currentPriority_index n hn
  have hcyc : n - 1 + 1 = n := by omega
  refine ⟨?_, ?_, ?_, ?_, ?_, ?_⟩
  · intro h
    unfold currentPriority
    rw [hidx, show (n - 1) % 4 = 0 by omega]
    decide
  · intro h
    unfold currentPriority
    rw [hidx, show (n - 1) % 4 = 1 by omega]
    decide
  · intro h
    unfold currentPriority
    rw [hidx, show (n - 1) % 4 = 2 by omega]
    decide
  · intro h
    unfold currentPriority
    rw [hidx, show (n - 1) % 4 = 3 by omega]
    decide
  · intro tasks snap spawnEpoch now hempty
    unfold run_development_cycle
    rw [hcyc]
    simp [hempty]
  · intro tasks snap spawnEpoch now hne
    unfold run_development_cycle
    rw [hcyc]
    simp [List.isEmpty_iff, hne]

/-- The five critical-tier work items of the catalog: the scenario of the
spec (5 critical items, none in the high tier). -/
def criticalOnlyTasks : List DevTask :=
  load_development_tasks.filter (fun t => t.priority = "critical")

def snapAllCompleted : Nat -> AgentSnap := fun _ =>
  { status := "completed", start_time := some "s", end_time := some "e",
    outputsJson := [] }

/-- Witness for C6: cycle 2 over a catalog with five critical and no high
items activates the (empty) high tier and falls back to selecting two of
the five critical items. -/
theorem tier_rotation_and_fallback_witness :
    1 ≤ 2 ∧
    criticalOnlyTasks.filter
        (fun t => t.priority = currentPriority 2) = [] ∧
    (run_development_cycle 1 criticalOnlyTasks snapAllCompleted
        (fun _ => 0) "now").selected
      = (criticalOnlyTasks.filter (fun t => t.priority = "critical")).take 2 := by
  refine ⟨by decide, by decide, ?_⟩
  exact (tier_rotation_and_fallback 2 (by decide)).2.2.2.2.1
    criticalOnlyTasks snapAllCompleted (fun _ => 0) "now" (by decide)

/-- C1 (amended): after the cycle timeout the results loop persists one
row for every spawned agent, carrying whatever status the agent has at
that moment; a straggler still running is persisted (status "running")
and counted among the failures, rather than being excluded, and nothing
further is persisted for it once the cycle has moved on. -/
theorem cycle_persists_every_spawned_agent (prev : Nat)
    (tasks : List DevTask) (snap : Nat -> AgentSnap)
    (spawnEpoch : Nat -> Nat) (now : String) :
    (run_development_cycle prev tasks snap spawnEpoch now).persisted.length
      = (run_development_cycle prev tasks snap spawnEpoch now).selected.length ∧
    (run_development_cycle prev tasks snap spawnEpoch now).persisted.map
        ExecRecord.status
      = (List.range
          (run_development_cycle prev tasks snap spawnEpoch now).selected.length).map
          (fun i => (snap i).status) ∧
    (run_development_cycle prev tasks snap spawnEpoch now).completed
        + (run_development_cycle prev tasks snap spawnEpoch now).failed
      = (run_development_cycle prev tasks snap spawnEpoch now).selected.length := by
  have key : ∀ (l : List (String × DevTask × AgentSnap))
      (p : String × DevTask × AgentSnap -> Bool),
      (l.filter p).length + (l.length - (l.filter p).length) = l.length := by
    intro l p
    have := l.length_filter_le p
    omega
  unfold run_development_cycle
  refine ⟨by simp, ?_, ?_⟩
  · simp only [List.map_map]
    rw [List.enum_eq_zip_range]
    show ((List.range _).zip _).map ((fun i => (snap i).status) ∘ Prod.fst) = _
    rw [← List.map_map, List.map_fst_zip _ _ (by simp)]
  · simp only [key]
    simp


/-- Snapshot in which the first spawned agent is still running when the
600 s cycle timeout fires (its `end_time` unset) and the second reached a
terminal state. -/
def snapStraggler : Nat -> AgentSnap := fun i =>
  if i = 0 then
    { status := "running", start_time := some "2025-01-01T00:00:00+00:00",
      end_time := none, outputsJson := [] }
  else
    { status := "completed", start_time := some "2025-01-01T00:00:00+00:00",
      end_time := some "2025-01-01T00:05:00+00:00", outputsJson := [] }

/-- Counterexample to C1 as stated: in the first cycle over the real
catalog, with one agent still running at the timeout, the persisted rows
are not restricted to terminal statuses — the straggler is persisted with
status "running". -/
theorem cycle_persists_running_straggler :
    (∃ r ∈ (run_development_cycle 0 load_development_tasks snapStraggler
        (fun _ => 1700000000) "2025-01-01T00:10:00+00:00").persisted,
      r.status = "running") ∧
    ¬ (∀ r ∈ (run_development_cycle 0 load_development_tasks snapStraggler
        (fun _ => 1700000000) "2025-01-01T00:10:00+00:00").persisted,
      r.status = "completed" ∨ r.status = "failed") := by
  decide

/-! ## Theorems: guardian claims -/

/-- C8: a guardian iteration restarts the orchestrator exactly when the
process is not found alive or the newest persisted record is older than
the 15-minute staleness threshold; the health inputs (recent completions
and failures, hence the health score) have no influence on the
decision. -/
theorem guardian_restart_characterization (running : Bool)
    (ageSeconds : Option ℚ) (c f c2 f2 : Nat) :
    ((guardian_iteration running ageSeconds c f).restarted = true ↔
      running = false ∨
        ∃ a, ageSeconds = some a ∧ a / 60 > restartThresholdMinutes) ∧
    (guardian_iteration running ageSeconds c f).restarted
      = (guardian_iteration running ageSeconds c2 f2).restarted := by
  unfold guardian_iteration
  cases running with
  | false => simp
  | true =>
    cases ageSeconds with
    | none => simp
    | some a =>
      by_cases h : a / 60 > restartThresholdMinutes
      · simp [h]
      · simp [h]

/-- C10: with no row in the execution log at all, `get_last_activity`
returns nothing, so a guardian iteration that finds the orchestrator
process alive merely logs the no-activity warning and never restarts,
whatever the clock, the health inputs, or how long the log stays
empty. -/
theorem empty_log_never_restarts (clockAge : String -> ℚ) (c f : Nat) :
    get_last_activity [] = none ∧
    (guardian_iteration true (ageOf (get_last_activity []) clockAge)
        c f).restarted = false ∧
    (guardian_iteration true (ageOf (get_last_activity []) clockAge)
        c f).warnedNoActivity = true := by
  exact ⟨rfl, rfl, rfl⟩


/-! ## Theorems: tool-registry file claims -/

/-- Helper: `encodeWrite` is the identity, since `os.linesep` is a single
newline on the deployment platform. -/
theorem encodeWrite_eq_self (s : List Char) : encodeWrite s = s := by
  induction s with
  | nil => rfl
  | cons c rest ih =>
    by_cases h : c = '\n'
    · simp [encodeWrite, osLinesep, h] at ih ⊢
      exact ih
    · simp [encodeWrite, osLinesep, h] at ih ⊢
      exact ih

/-- Helper: universal-newline decoding leaves a text without carriage
returns unchanged. -/
theorem decodeNewlines_eq_self (s : List Char) (h : '\x0d' ∉ s) :
    decodeNewlines s = s := by
  induction s with
  | nil => rfl
  | cons c rest ih =>
    have hc : c ≠ '\x0d' := fun hh => h (hh ▸ List.mem_cons_self c rest)
    have hr : '\x0d' ∉ rest := fun hh => h (List.mem_cons_of_mem c hh)
    cases rest with
    | nil => simp [decodeNewlines, hc]
    | cons d rs => rw [show decodeNewlines (c :: d :: rs)
        = c :: decodeNewlines (d :: rs) from by simp [decodeNewlines, hc], ih hr]

/-- Helper: `f.readlines()` then `"".join(lines)` restores the text. -/
theorem pyReadlinesAux_flatten (acc s : List Char) :
    (pyReadlinesAux acc s).flatten = acc.reverse ++ s := by
  induction s generalizing acc with
  | nil =>
    by_cases h : acc.isEmpty
    · rw [List.isEmpty_iff.mp h]
      rfl
    · simp [pyReadlinesAux, h]
  | cons c rest ih =>
    by_cases h : c = '\n'
    · subst h
      rw [show pyReadlinesAux acc ('\n' :: rest)
        = (acc.reverse ++ ['\n']) :: pyReadlinesAux [] rest from by
          simp [pyReadlinesAux], List.flatten_cons, ih]
      simp
    · rw [show pyReadlinesAux acc (c :: rest)
        = pyReadlinesAux (c :: acc) rest from by simp [pyReadlinesAux, h], ih]
      simp

theorem pyReadlines_flatten (s : List Char) :
    (pyReadlines s).flatten = s := by
  have := pyReadlinesAux_flatten [] s
  simpa [pyReadlines] using this

/-- C9 (amended): for content free of carriage-return characters,
`write(path, content)` followed by `read(path)` with no offset and no
limit succeeds and returns exactly the content.  (Universal-newline
decoding on read makes the round trip normalize any carriage returns, so
the restriction is necessary; see the counterexample.) -/
theorem write_read_roundtrip_no_carriage_return (fs : FS) (path : String)
    (content : List Char) (h : '\x0d' ∉ content) :
    (read_file ((write_file fs path content).1) path 0 none).success = true ∧
    (read_file ((write_file fs path content).1) path 0 none).content
      = some content := by
  have hstore : ((write_file fs path content).1) path = some content := by
    simp [write_file, FS.update, encodeWrite_eq_self]
  unfold read_file
  rw [hstore]
  simp [decodeNewlines_eq_self content h, pyReadlines_flatten, toolOkRead]

def fsEmpty : FS := fun _ => none

/-- Counterexample to C9 as stated: the round trip is not the identity
for every string.  Writing "a\rb" stores those bytes, but the text-mode
read applies universal-newline translation and returns "a\nb". -/
theorem write_read_roundtrip_counterexample :
    (read_file ((write_file fsEmpty "/tmp/f" ['a', '\x0d', 'b']).1)
        "/tmp/f" 0 none).content = some ['a', '\n', 'b'] ∧
    (['a', '\n', 'b'] : List Char) ≠ ['a', '\x0d', 'b'] := by
  decide

/-- Witness for C9: the round trip at a concrete carriage-return-free
content. -/
theorem write_read_roundtrip_witness :
    ('\x0d' ∉ ("hello\nworld\n".data : List Char)) ∧
    (read_file ((write_file fsEmpty "/tmp/f" "hello\nworld\n".data).1)
        "/tmp/f" 0 none).content = some "hello\nworld\n".data := by
  refine ⟨by decide, ?_⟩
  exact (write_read_roundtrip_no_carriage_return fsEmpty "/tmp/f"
    "hello\nworld\n".data (by decide)).2


/-- Helper: `s.replace(old, new, 1)` rewrites exactly the leftmost
occurrence of `old`: the text splits as `pre ++ old ++ suf` with no
occurrence of `old` starting inside `pre`, and the result is
`pre ++ new ++ suf`. -/
theorem replaceFirst_spec (old new s : List Char)
    (h : pyContains old s = true) :
    ∃ pre suf, s = pre ++ old ++ suf ∧
      replaceFirst old new s = pre ++ new ++ suf ∧
      ∀ i < pre.length, old.isPrefixOf (s.drop i) = false := by
  induction s with
  | nil =>
    refine ⟨[], [], ?_, ?_, ?_⟩
    · have : old.isEmpty = true := by simpa [pyContains] using h
      simp [List.isEmpty_iff.mp this]
    · have : old.isEmpty = true := by simpa [pyContains] using h
      simp [replaceFirst, this]
    · intro i hi
      simp at hi
  | cons c rest ih =>
    by_cases hp : old.isPrefixOf (c :: rest) = true
    · refine ⟨[], (c :: rest).drop old.length, ?_, ?_, ?_⟩
      · have hpre : old <+: c :: rest := List.isPrefixOf_iff_prefix.mp hp
        have := List.prefix_iff_eq_append.mp hpre
        simpa using this.symm
      · simp [replaceFirst, hp]
      · intro i hi
        simp at hi
    · have hrest : pyContains old rest = true := by
        have := h
        unfold pyContains at this
        rcases Bool.or_eq_true_iff.mp this with h1 | h2
        · exact absurd h1 hp
        · exact h2
      obtain ⟨pre, suf, hsp, hrep, hfirst⟩ := ih hrest
      refine ⟨c :: pre, suf, by simp [hsp], ?_, ?_⟩
      · rw [show replaceFirst old new (c :: rest)
          = c :: replaceFirst old new rest from by
            simp [replaceFirst, hp], hrep]
        simp
      · intro i hi
        cases i with
        | zero =>
          simpa using Bool.not_eq_true _ ▸ (Bool.of_not_eq_true hp)
        | succ j =>
          have hj : j < pre.length := by simpa using hi
          simpa using hfirst j hj

/-- C4: editing a file whose (decoded) content does not contain
`old_text` fails with "Text not found" and leaves the whole filesystem —
in particular that file — byte-identical; when `old_text` occurs, exactly
its leftmost occurrence is replaced and the new content is written
back. -/
theorem edit_file_first_occurrence (fs : FS) (path : String)
    (old new stored : List Char) (hst : fs path = some stored) :
    (pyContains old (decodeNewlines stored) = false →
      edit_file fs path old new = (fs, toolFail "Text not found")) ∧
    (pyContains old (decodeNewlines stored) = true →
      ∃ pre suf, decodeNewlines stored = pre ++ old ++ suf ∧
        (∀ i < pre.length,
          old.isPrefixOf ((decodeNewlines stored).drop i) = false) ∧
        (edit_file fs path old new).2 = toolOkPath path ∧
        (edit_file fs path old new).1 path
          = some (encodeWrite (pre ++ new ++ suf)) ∧
        ∀ p2, p2 ≠ path → (edit_file fs path old new).1 p2 = fs p2) := by
  constructor
  · intro habs
    unfold edit_file
    rw [hst]
    simp [habs]
  · intro hpres
    obtain ⟨pre, suf, hsp, hrep, hfirst⟩ :=
      replaceFirst_spec old new (decodeNewlines stored) hpres
    refine ⟨pre, suf, hsp, hfirst, ?_, ?_, ?_⟩
    · unfold edit_file
      rw [hst]
      simp [hpres]
    · unfold edit_file
      rw [hst]
      simp [hpres, FS.update, hrep]
    · intro p2 hp2
      unfold edit_file
      rw [hst]
      simp [hpres, FS.update, hp2]

def fsHello : FS := (write_file fsEmpty "/f" "hello world".data).1

/-- Witness for C4: a concrete file, one absent needle (failure, file
untouched) and one present needle (leftmost replacement). -/
theorem edit_file_first_occurrence_witness :
    fsHello "/f" = some "hello world".data ∧
    pyContains "xyz".data (decodeNewlines "hello world".data) = false ∧
    edit_file fsHello "/f" "xyz".data "Q".data
      = (fsHello, toolFail "Text not found") ∧
    pyContains "o".data (decodeNewlines "hello world".data) = true ∧
    ∃ pre suf, decodeNewlines "hello world".data = pre ++ "o".data ++ suf ∧
      (∀ i < pre.length,
        "o".data.isPrefixOf ((decodeNewlines "hello world".data).drop i)
          = false) ∧
      (edit_file fsHello "/f" "o".data "0".data).2 = toolOkPath "/f" ∧
      (edit_file fsHello "/f" "o".data "0".data).1 "/f"
        = some (encodeWrite (pre ++ "0".data ++ suf)) ∧
      ∀ p2, p2 ≠ "/f" → (edit_file fsHello "/f" "o".data "0".data).1 p2
        = fsHello p2 := by
  have hst : fsHello "/f" = some "hello world".data := by decide
  refine ⟨hst, by decide, ?_, by decide, ?_⟩
  · exact (edit_file_first_occurrence fsHello "/f" "xyz".data "Q".data
      "hello world".data hst).1 (by decide)
  · exact (edit_file_first_occurrence fsHello "/f" "o".data "0".data
      "hello world".data hst).2 (by decide)


/-! ## Theorems: conversation-loop claims -/

/-- A round in which the backend returns status 200 and a body whose
fenced blocks parse, without raising, to a non-empty list of tool-call
dicts: the conditions under which `query` executes tools and loops. -/
def goodRound (backend : Nat -> Transport) (i : Nat) : Prop :=
  ∃ body calls, backend i = Transport.resp 200 body ∧
    parse_tool_calls body = Except.ok calls ∧ calls ≠ [] ∧
    calls.all isObj = true

/-- Helper: a good round consumes one model call, appends a non-empty
extension to the accumulated text, and continues the loop. -/
theorem queryGo_good_step (backend : Nat -> Transport) (i rem : Nat)
    (acc : List Char) (h : goodRound backend i) :
    ∃ acc2, acc2 ≠ [] ∧
      queryGo backend i (rem + 1) acc
        = ((queryGo backend (i + 1) rem acc2).1,
           (queryGo backend (i + 1) rem acc2).2 + 1) := by
  obtain ⟨body, calls, hbk, hparse, hne, hobj⟩ := h
  refine ⟨acc ++ body ++ "\n\n".data ++ toolMarkers calls, by simp, ?_⟩
  conv_lhs => unfold queryGo
  rw [hbk]
  simp only [ne_eq, not_true_eq_false, if_false, hparse]
  cases calls with
  | nil => exact absurd rfl hne
  | cons c0 cs =>
    simp [hobj]

/-- Helper: after k good rounds the loop stands at round k with a
non-empty accumulator (for k ≥ 1), having issued k model calls. -/
theorem queryGo_after_goods (backend : Nat -> Transport) :
    ∀ (k : Nat) (i rem : Nat) (acc : List Char),
      (∀ j, j < k → goodRound backend (i + j)) →
      ∃ acc2, (k = 0 → acc2 = acc) ∧ (1 ≤ k → acc2 ≠ []) ∧
        queryGo backend i (k + rem) acc
          = ((queryGo backend (i + k) rem acc2).1,
             (queryGo backend (i + k) rem acc2).2 + k) := by
  intro k
  induction k with
  | zero =>
    intro i rem acc _
    exact ⟨acc, fun _ => rfl, by omega, by simp⟩
  | succ k ih =>
    intro i rem acc hgood
    have h0 : goodRound backend i := by simpa using hgood 0 (by omega)
    obtain ⟨acc1, hne1, hstep⟩ :=
      queryGo_good_step backend i (k + rem) acc h0
    have hshift : ∀ j, j < k → goodRound backend (i + 1 + j) := by
      intro j hj
      have := hgood (j + 1) (by omega)
      simpa [Nat.add_assoc, Nat.add_comm 1 j] using this
    obtain ⟨acc2, hk0, hk1, heq⟩ := ih (i + 1) rem acc1 hshift
    refine ⟨acc2, by omega, ?_, ?_⟩
    · intro _
      cases k with
      | zero => rw [hk0 rfl]; exact hne1
      | succ k2 => exact hk1 (by omega)
    · have harr : k + 1 + rem = (k + rem) + 1 := by omega
      rw [harr, hstep, heq]
      have : i + 1 + k = i + (k + 1) := by omega
      rw [this]
      simp [Nat.add_assoc]

/-- C5 (amended): when every round up to the iteration cap gets an HTTP
200 response whose fenced blocks parse, without raising, to at least one
tool-call dict, `query` issues exactly `maxIter` model calls (5 by
default) and returns the accumulated text, which is non-empty; no
exception escapes (the model is total and the outer handler would turn
one into `None`, which does not occur here). -/
theorem query_tool_loop_reaches_cap (backend : Nat -> Transport)
    (maxIter : Nat) (hcap : 1 ≤ maxIter)
    (h : ∀ i, i < maxIter → goodRound backend i) :
    ∃ t, query backend maxIter = (some t, maxIter) ∧ t ≠ [] := by
  obtain ⟨acc2, _, hk1, heq⟩ :=
    queryGo_after_goods backend maxIter 0 0 []
      (by intro j hj; simpa using h j hj)
  have hne := hk1 hcap
  refine ⟨acc2, ?_, hne⟩
  unfold query
  simp only [Nat.add_zero] at heq
  rw [heq]
  rw [show queryGo backend (0 + maxIter) 0 acc2
      = ((if acc2.isEmpty then none else some acc2), 0) from rfl]
  simp [List.isEmpty_iff, hne]

/-- C2 (amended): with k good rounds behind it (k below the cap), a
transport failure in round k aborts the loop at once, after k+1 model
calls in total; an exception during the HTTP call makes `query` return
`None`, discarding the accumulated partial text, while a non-200 status
returns the accumulated partial text (which is non-empty whenever at
least one round preceded, and `None` when none did). -/
theorem query_transport_failure_behavior (backend : Nat -> Transport)
    (k maxIter : Nat) (hk : k < maxIter)
    (hgood : ∀ i, i < k → goodRound backend i) :
    (backend k = Transport.exc →
      query backend maxIter = (none, k + 1)) ∧
    (∀ s body, backend k = Transport.resp s body → s ≠ 200 →
      ∃ t, query backend maxIter
          = ((if t.isEmpty then none else some t), k + 1) ∧
        (1 ≤ k → t ≠ [])) := by
  obtain ⟨rem, hrem⟩ : ∃ rem, maxIter = k + (rem + 1) := by
    exact ⟨maxIter - k - 1, by omega⟩
  obtain ⟨acc2, hk0, hk1, heq⟩ :=
    queryGo_after_goods backend k 0 (rem + 1) []
      (by intro j hj; simpa using hgood j hj)
  constructor
  · intro hexc
    unfold query
    rw [hrem, heq]
    rw [show queryGo backend (0 + k) (rem + 1) acc2 = (none, 1) from by
      conv_lhs => unfold queryGo
      rw [show (0 : Nat) + k = k from by omega, hexc]]
    simp [Nat.add_comm]
  · intro s body hbk hs
    refine ⟨acc2, ?_, hk1⟩
    unfold query
    rw [hrem, heq]
    rw [show queryGo backend (0 + k) (rem + 1) acc2
        = ((if acc2.isEmpty then none else some acc2), 1) from by
      conv_lhs => unfold queryGo
      rw [show (0 : Nat) + k = k from by omega, hbk]
      simp [hs]]
    simp [Nat.add_comm]


/-- A response whose single fenced block is a well-formed tool call. -/
def goodToolBody : List Char :=
  "```tool\n\x7b\"tool\": \"bash\", \"command\": \"ls\"\x7d\n```".data

/-- The tool call parsed from `goodToolBody`. -/
def goodToolCall : Json :=
  Json.obj [("tool".data, Json.str "bash".data),
            ("command".data, Json.str "ls".data)]

/-- Backend whose first round succeeds with a tool call and whose second
round raises a transport exception. -/
def backendExcAfterOne : Nat -> Transport := fun i =>
  match i with
  | 0 => Transport.resp 200 goodToolBody
  | _ + 1 => Transport.exc

/-- Backend whose first round succeeds with a tool call and whose second
round returns HTTP 500. -/
def backendNon200After : Nat -> Transport := fun i =>
  match i with
  | 0 => Transport.resp 200 goodToolBody
  | _ + 1 => Transport.resp 500 "server error".data

/-- Counterexample to C2 as stated: after a first round that accumulated
non-empty partial text, an exception during the second HTTP call makes
`query` return `None` (the outer `except Exception` path), discarding the
partial text instead of returning it. -/
theorem query_exception_discards_partial_text :
    query backendExcAfterOne 5 = (none, 2) ∧
    parse_tool_calls goodToolBody = Except.ok [goodToolCall] ∧
    goodToolBody ++ "\n\n".data ++ toolMarkers [goodToolCall] ≠ [] := by
  refine ⟨rfl, rfl, by simp⟩

/-- Witness for C2 (amended): one good round, then an exception (result
`None` after 2 calls) or a 500 status (result: the non-empty partial
text, after 2 calls). -/
theorem query_transport_failure_behavior_witness :
    query backendExcAfterOne 5 = (none, 1 + 1) ∧
    ∃ t, query backendNon200After 5
        = ((if t.isEmpty then none else some t), 1 + 1) ∧
      (1 ≤ 1 → t ≠ []) := by
  constructor
  · refine (query_transport_failure_behavior backendExcAfterOne 1 5
      (by decide) ?_).1 rfl
    intro i hi
    have h0 : i = 0 := by omega
    subst h0
    exact ⟨goodToolBody, [goodToolCall], rfl, rfl,
      List.cons_ne_nil _ _, rfl⟩
  · refine (query_transport_failure_behavior backendNon200After 1 5
      (by decide) ?_).2 500 "server error".data rfl (by decide)
    intro i hi
    have h0 : i = 0 := by omega
    subst h0
    exact ⟨goodToolBody, [goodToolCall], rfl, rfl,
      List.cons_ne_nil _ _, rfl⟩

/-- Witness for C5 (amended): a backend that always answers 200 with one
well-formed tool call makes `query` issue exactly the default cap of 5
model calls and return non-empty text. -/
theorem query_tool_loop_reaches_cap_witness :
    1 ≤ 5 ∧
    ∃ t, query (fun _ => Transport.resp 200 goodToolBody) 5
        = (some t, 5) ∧ t ≠ [] := by
  refine ⟨by decide, query_tool_loop_reaches_cap _ 5 (by decide) ?_⟩
  intro i _
  exact ⟨goodToolBody, [goodToolCall], rfl, rfl,
    List.cons_ne_nil _ _, rfl⟩

/-- A 200 response containing one well-formed tool call followed by a
fenced block holding the bare JSON number `1`. -/
def mixedBody : List Char :=
  "```tool\n\x7b\"tool\": \"read\", \"path\": \"/a\"\x7d\n```\nok\n```tool\n1\n```".data

/-- Counterexample to C5 as stated: every round returns 200 and contains
a well-formed tool call, yet `query` issues a single model call and
returns `None` — the second fenced block decodes to the integer 1, so
`"tool" in tool_data` raises `TypeError` out of `parse_tool_calls` and
the outer handler swallows it. -/
theorem query_cap_counterexample :
    query (fun _ => Transport.resp 200 mixedBody) 5 = (none, 1) ∧
    findTool mixedBody
      = ["\x7b\"tool\": \"read\", \"path\": \"/a\"\x7d".data, ['1']] ∧
    json_loads "\x7b\"tool\": \"read\", \"path\": \"/a\"\x7d".data
      = some (Json.obj [("tool".data, Json.str "read".data),
                        ("path".data, Json.str "/a".data)]) ∧
    parse_tool_calls mixedBody = Except.error PyErr.typeError := by
  refine ⟨rfl, by decide, rfl, rfl⟩

/-- Counterexample to C3 as stated: a response whose only fenced block is
the valid JSON `123` — a malformed invocation (no tool discriminator),
which the claim says is silently dropped — instead raises `TypeError`
out of `parse_tool_calls` (only `json.JSONDecodeError` is caught), so no
empty sequence is returned. -/
theorem parse_tool_calls_raises_on_number_block :
    parse_tool_calls "```tool\n123\n```".data
      = Except.error PyErr.typeError ∧
    json_loads "123".data = some (Json.num ['1', '2', '3']) := by
  exact ⟨rfl, rfl⟩


/-! ## Theorems: ToolCallProtocol general interleaving claim

To quantify over "K well-formed blocks interleaved with M malformed
ones", a response is rendered as filler text alternating with fenced
blocks.  A filler is clean when it contains no backtick (so it can open
no fence); a block body is clean when it is non-empty, backtick-free and
has non-whitespace first and last characters (whitespace at the edges is
consumed by the regex and by `strip()` anyway, so cleanliness only fixes
the captured body to be the rendered body verbatim). -/

def fence (c : List Char) : List Char :=
  fenceOpen ++ '\n' :: (c ++ '\n' :: fenceClose)

def render : List (List Char) → List (List Char) → List Char
  | f :: fs, c :: cs => f ++ (fence c ++ render fs cs)
  | f :: _, [] => f
  | [], _ => []

def noTick (l : List Char) : Bool :=
  l.all (fun x => x ≠ backtick)

def cleanBlock (b : List Char) : Bool :=
  match b.head?, b.getLast? with
  | some a, some z => noTick b && !(isPySpace a) && !(isPySpace z)
  | _, _ => false

/-- A block the amended claim covers: `strip()`ed it is either invalid
JSON or decodes to a JSON object (the non-object JSON values are exactly
the ones the code mishandles: containers are kept when they mention
"tool", scalars raise `TypeError`). -/
def blockAdmissible (c : List Char) : Bool :=
  match json_loads (pyStrip c) with
  | none => true
  | some (Json.obj _) => true
  | some _ => false

/-- What the loop body of `parse_tool_calls` keeps of a block: its JSON
value when that is an object carrying the `"tool"` key. -/
def keepBlock (c : List Char) : Option Json :=
  match json_loads (pyStrip c) with
  | some (Json.obj entries) =>
    if entries.any (fun kv => kv.1 = "tool".data) then
      some (Json.obj entries)
    else none
  | _ => none

/-- Helper: a captured rest is strictly shorter than the scanned text. -/
theorem lazyBody_length {s b r : List Char}
    (h : lazyBody s = some (b, r)) : r.length < s.length := by
  induction s generalizing b r with
  | nil => exact absurd h (by simp [lazyBody])
  | cons c rest ih =>
    unfold lazyBody at h
    by_cases h1 : fenceClose.isPrefixOf (c :: rest) = true
    · rw [if_pos h1] at h
      injection h with hp
      injection hp with hb hr
      subst hr
      simp
      omega
    · rw [if_neg h1] at h
      by_cases h2 : c = '\n' ∧ fenceClose.isPrefixOf rest = true
      · rw [if_pos h2] at h
        injection h with hp
        injection hp with hb hr
        subst hr
        have : (rest.drop 3).length ≤ rest.length := by
          simp
        simp only [List.length_cons]
        omega
      · rw [if_neg h2] at h
        cases hlb : lazyBody rest with
        | none => rw [hlb] at h; exact absurd h (by simp)
        | some p =>
          rw [hlb] at h
          injection h with hp
          injection hp with hb hr
          subst hr
          have := ih hlb
          simp only [List.length_cons]
          omega

/-- Helper: `dropWhile` never lengthens a list. -/
theorem dropWhile_length_le (p : Char → Bool) (l : List Char) :
    (l.dropWhile p).length ≤ l.length :=
  (List.dropWhile_sublist p).length_le

theorem matchFence_length {s b r : List Char}
    (h : matchFence s = some (b, r)) : r.length < s.length := by
  unfold matchFence at h
  by_cases hp : fenceOpen.isPrefixOf s = true
  · rw [if_pos hp] at h
    have h1 := lazyBody_length h
    have h2 : ((s.drop 7).dropWhile isPySpace).length ≤ (s.drop 7).length :=
      dropWhile_length_le _ _
    have h3 : (s.drop 7).length ≤ s.length := by simp
    omega
  · rw [if_neg hp] at h
    exact absurd h (by simp)

/-- Helper: any sufficient fuel computes `findTool`. -/
theorem findToolFuel_congr :
    ∀ (f1 f2 : Nat) (s : List Char), s.length ≤ f1 → s.length ≤ f2 →
      findToolFuel f1 s = findToolFuel f2 s := by
  intro f1
  induction f1 with
  | zero =>
    intro f2 s h1 _
    have : s = [] := by
      cases s with
      | nil => rfl
      | cons c r => simp at h1
    subst this
    cases f2 with
    | zero => rfl
    | succ f => rfl
  | succ f1 ih =>
    intro f2 s h1 h2
    cases s with
    | nil =>
      cases f2 with
      | zero => rfl
      | succ f => rfl
    | cons c rest =>
      cases f2 with
      | zero => simp at h2
      | succ f2p =>
        unfold findToolFuel
        cases hm : matchFence (c :: rest) with
        | none =>
          simp only [List.length_cons] at h1 h2
          exact ih f2p rest (by omega) (by omega)
        | some p =>
          obtain ⟨b, r⟩ := p
          have hlen := matchFence_length hm
          simp only [List.length_cons] at hlen h1 h2
          exact congrArg (b :: ·) (ih f2p r (by omega) (by omega))

theorem findTool_cons_none {c : Char} {rest : List Char}
    (h : matchFence (c :: rest) = none) :
    findTool (c :: rest) = findTool rest := by
  show findToolFuel (c :: rest).length (c :: rest) = findTool rest
  rw [show (c :: rest).length = rest.length + 1 from by simp]
  conv_lhs => unfold findToolFuel
  rw [h]
  rfl

theorem findTool_cons_some {c : Char} {rest b r : List Char}
    (h : matchFence (c :: rest) = some (b, r)) :
    findTool (c :: rest) = b :: findTool r := by
  show findToolFuel (c :: rest).length (c :: rest) = b :: findTool r
  rw [show (c :: rest).length = rest.length + 1 from by simp]
  conv_lhs => unfold findToolFuel
  rw [h]
  have hlen := matchFence_length h
  simp only [List.length_cons] at hlen
  exact congrArg (b :: ·)
    (findToolFuel_congr rest.length r.length r (by omega) (by omega))

/-- Helper: a non-backtick head can open no fence. -/
theorem matchFence_cons_ne {c : Char} {s : List Char} (h : c ≠ backtick) :
    matchFence (c :: s) = none := by
  unfold matchFence
  rw [if_neg]
  simp [fenceOpen, List.isPrefixOf]
  exact fun hc => absurd hc.symm h

/-- Helper: backtick-free filler before the rest of the response is
skipped by the scan. -/
theorem findTool_skip_filler (f t : List Char) (hf : noTick f = true) :
    findTool (f ++ t) = findTool t := by
  induction f with
  | nil => rfl
  | cons c rest ih =>
    have hc : c ≠ backtick := by
      have := List.all_eq_true.mp hf c (List.mem_cons_self _ _)
      simpa using this
    have hrest : noTick rest = true := by
      apply List.all_eq_true.mpr
      intro x hx
      exact List.all_eq_true.mp hf x (List.mem_cons_of_mem _ hx)
    rw [List.cons_append, findTool_cons_none (matchFence_cons_ne hc), ih hrest]


/-- Helper: the fields packed into `cleanBlock`. -/
theorem cleanBlock_spec {b : List Char} (h : cleanBlock b = true) :
    ∃ a bs, b = a :: bs ∧ isPySpace a = false ∧ noTick b = true ∧
      b.getLast? ≠ some '\n' := by
  unfold cleanBlock at h
  cases hb : b with
  | nil => rw [hb] at h; simp at h
  | cons a bs =>
    rw [hb] at h
    cases hl : (a :: bs).getLast? with
    | none => simp at hl
    | some z =>
      rw [show (a :: bs).head? = some a from rfl, hl] at h
      simp only [Bool.and_eq_true, Bool.not_eq_true'] at h
      obtain ⟨⟨h1, h2⟩, h3⟩ := h
      refine ⟨a, bs, rfl, h2, h1, ?_⟩
      intro heq
      have hz : z = '\n' := Option.some.inj heq
      rw [hz] at h3
      simp [isPySpace] at h3

/-- Helper: a list is a Boolean prefix of itself followed by anything. -/
theorem isPrefixOf_append_self (l r : List Char) :
    l.isPrefixOf (l ++ r) = true := by
  induction l with
  | nil => simp
  | cons c cs ih => simp [List.isPrefixOf, ih]

/-- Helper: the closing fence is no prefix of text starting without a
backtick. -/
theorem fenceClose_not_prefix_cons (y : Char) (s : List Char)
    (h : y ≠ backtick) : ¬ fenceClose.isPrefixOf (y :: s) = true := by
  simp [fenceClose, List.isPrefixOf]
  exact fun hq => absurd hq.symm h

/-- Helper: the lazy body scan runs through a clean block and stops at
the newline before the closing fence. -/
theorem lazyBody_clean (c t : List Char) (hticks : noTick c = true)
    (hlast : c.getLast? ≠ some '\n') :
    lazyBody (c ++ ('\n' :: (fenceClose ++ t))) = some (c, t) := by
  induction c with
  | nil =>
    rw [List.nil_append]
    unfold lazyBody
    rw [if_neg (fenceClose_not_prefix_cons '\n' _ (by decide))]
    rw [if_pos (⟨rfl, isPrefixOf_append_self _ _⟩ :
      '\n' = '\n' ∧ fenceClose.isPrefixOf (fenceClose ++ t) = true)]
    rw [show (fenceClose ++ t).drop 3 = t from by
      rw [show (3 : Nat) = fenceClose.length from rfl, List.drop_left]]
  | cons x cs ih =>
    have hx : x ≠ backtick := by
      have := List.all_eq_true.mp hticks x (List.mem_cons_self _ _)
      simpa using this
    have hcs : noTick cs = true := by
      apply List.all_eq_true.mpr
      intro y hy
      exact List.all_eq_true.mp hticks y (List.mem_cons_of_mem _ hy)
    have hlcs : cs.getLast? ≠ some '\n' := by
      cases hcse : cs with
      | nil => simp
      | cons d ds =>
        rw [← hcse]
        intro hcontra
        apply hlast
        rw [show (x :: cs).getLast? = cs.getLast? from by
          rw [hcse]
          simp, hcontra]
    have hside : ¬ (x = '\n' ∧
        fenceClose.isPrefixOf (cs ++ ('\n' :: (fenceClose ++ t))) = true) := by
      intro hand
      obtain ⟨hx1, hx2⟩ := hand
      cases hcse : cs with
      | nil =>
        rw [hcse] at hx2
        rw [List.nil_append] at hx2
        exact fenceClose_not_prefix_cons '\n' _ (by decide) hx2
      | cons d ds =>
        have hd : d ≠ backtick := by
          have := List.all_eq_true.mp hcs d (by
            rw [hcse]
            exact List.mem_cons_self _ _)
          simpa using this
        rw [hcse] at hx2
        rw [List.cons_append] at hx2
        exact fenceClose_not_prefix_cons d _ hd hx2
    have step : lazyBody ((x :: cs) ++ ('\n' :: (fenceClose ++ t)))
        = match lazyBody (cs ++ ('\n' :: (fenceClose ++ t))) with
          | some (b, r) => some (x :: b, r)
          | none => none := by
      rw [List.cons_append]
      conv_lhs => unfold lazyBody
      rw [if_neg (fenceClose_not_prefix_cons x _ hx)]
      rw [if_neg hside]
    rw [step, ih hcs hlcs]

/-- Helper: the full regex matches at a rendered fence, capturing the
clean body verbatim and resuming after the closing fence. -/
theorem matchFence_fence (c t : List Char) (hclean : cleanBlock c = true) :
    matchFence (fence c ++ t) = some (c, t) := by
  obtain ⟨a, bs, hcons, hsp, hticks, hlast⟩ := cleanBlock_spec hclean
  have hshape : fence c ++ t
      = fenceOpen ++ ('\n' :: (c ++ ('\n' :: (fenceClose ++ t)))) := by
    simp [fence, List.append_assoc]
  rw [hshape]
  unfold matchFence
  rw [if_pos (isPrefixOf_append_self _ _)]
  rw [show (fenceOpen ++ ('\n' :: (c ++ ('\n' :: (fenceClose ++ t))))).drop 7
      = '\n' :: (c ++ ('\n' :: (fenceClose ++ t))) from by
    rw [show (7 : Nat) = fenceOpen.length from rfl, List.drop_left]]
  rw [List.dropWhile_cons]
  rw [if_pos (by simp [isPySpace])]
  rw [hcons, List.cons_append, List.dropWhile_cons,
    if_neg (by rw [hsp]; simp), ← List.cons_append, ← hcons]
  exact lazyBody_clean c t hticks hlast


/-- Helper: the scan over a rendered response returns exactly the block
bodies, in document order. -/
theorem findTool_render :
    ∀ (cs fs : List (List Char)), fs.length = cs.length + 1 →
      (∀ f ∈ fs, noTick f = true) → (∀ c ∈ cs, cleanBlock c = true) →
      findTool (render fs cs) = cs := by
  intro cs
  induction cs with
  | nil =>
    intro fs hlen hf _
    match fs, hlen with
    | [f], _ =>
      show findTool f = []
      have : findTool (f ++ []) = findTool [] :=
        findTool_skip_filler f [] (hf f (List.mem_cons_self _ _))
      simpa using this
  | cons c cs ih =>
    intro fs hlen hf hc
    match fs, hlen with
    | f :: fs2, hlen =>
      show findTool (f ++ (fence c ++ render fs2 cs)) = c :: cs
      rw [findTool_skip_filler f _ (hf f (List.mem_cons_self _ _))]
      obtain ⟨a, bs, hcons, _, _, _⟩ :=
        cleanBlock_spec (hc c (List.mem_cons_self _ _))
      have hfence := matchFence_fence c (render fs2 cs)
        (hc c (List.mem_cons_self _ _))
      have hshape : fence c ++ render fs2 cs
          = (backtick :: (fenceOpen.tail ++
              ('\n' :: (c ++ ('\n' :: fenceClose))) ++ render fs2 cs)) := by
        simp [fence, fenceOpen, List.append_assoc]
      rw [hshape] at hfence ⊢
      rw [findTool_cons_some hfence]
      have hlen2 : fs2.length = cs.length + 1 := by
        simpa using hlen
      rw [ih fs2 hlen2
        (fun g hg => hf g (List.mem_cons_of_mem _ hg))
        (fun b hb => hc b (List.mem_cons_of_mem _ hb))]

/-- Helper: over blocks in the amended classes the collection loop keeps
precisely the JSON objects carrying the "tool" key, in order, and raises
nothing. -/
theorem collect_admissible :
    ∀ (ms : List (List Char)), (∀ m ∈ ms, blockAdmissible m = true) →
      collectToolCalls ms = Except.ok (ms.filterMap keepBlock) := by
  intro ms
  induction ms with
  | nil => intro _; rfl
  | cons m ms ih =>
    intro hadm
    have hm := hadm m (List.mem_cons_self _ _)
    have hrest := ih (fun x hx => hadm x (List.mem_cons_of_mem _ hx))
    unfold collectToolCalls
    unfold blockAdmissible at hm
    cases hj : json_loads (pyStrip m) with
    | none =>
      rw [hrest]
      rw [show (m :: ms).filterMap keepBlock = ms.filterMap keepBlock from by
        rw [List.filterMap_cons]
        rw [show keepBlock m = none from by unfold keepBlock; rw [hj]]]
    | some v =>
      rw [hj] at hm
      cases v with
      | obj entries =>
        show (match toolMember (Json.obj entries) with
          | Except.error e => Except.error e
          | Except.ok true => (collectToolCalls ms).map
              (fun tl => Json.obj entries :: tl)
          | Except.ok false => collectToolCalls ms)
          = Except.ok ((m :: ms).filterMap keepBlock)
        rw [show toolMember (Json.obj entries)
          = Except.ok (entries.any (fun kv => kv.1 = "tool".data)) from rfl]
        by_cases hkey : entries.any (fun kv => kv.1 = "tool".data) = true
        · rw [hkey]
          rw [hrest]
          rw [List.filterMap_cons,
            show keepBlock m = some (Json.obj entries) from by
              unfold keepBlock
              rw [hj]
              simp [hkey]]
          rfl
        · rw [Bool.not_eq_true] at hkey
          rw [hkey]
          rw [hrest]
          rw [List.filterMap_cons,
            show keepBlock m = none from by
              unfold keepBlock
              rw [hj]
              simp [hkey]]
      | null => simp at hm
      | bool b => simp at hm
      | num lx => simp at hm
      | str s => simp at hm
      | arr elems => simp at hm

/-- C3 (amended): for a response rendered as backtick-free filler
interleaved with K fenced blocks decoding to JSON objects with a "tool"
key and M fenced blocks that are invalid JSON or objects without the
key, `parse_tool_calls` returns exactly the K object values, in document
order; in particular zero well-formed blocks yield the empty sequence.
(Blocks decoding to non-object JSON break the claim: see the
counterexample.) -/
theorem parse_tool_calls_wellformed_blocks (fs cs : List (List Char))
    (hlen : fs.length = cs.length + 1)
    (hf : ∀ f ∈ fs, noTick f = true)
    (hc : ∀ c ∈ cs, cleanBlock c = true)
    (hadm : ∀ c ∈ cs, blockAdmissible c = true) :
    parse_tool_calls (render fs cs)
      = Except.ok (cs.filterMap keepBlock) := by
  unfold parse_tool_calls
  rw [findTool_render cs fs hlen hf hc]
  exact collect_admissible cs hadm

/-- Concrete render pieces for the C3 witness: two well-formed blocks,
one block of invalid JSON and one valid JSON object lacking the key,
interleaved with plain filler text. -/
def wfBlockA : List Char := "\x7b\"tool\": \"read\", \"path\": \"/a\"\x7d".data

def wfBlockB : List Char := "\x7b\"tool\": \"write\"\x7d".data

def badBlockSyntax : List Char := "not json at all".data

def badBlockNoKey : List Char := "\x7b\"cmd\": \"ls\"\x7d".data

def witnessFillers : List (List Char) :=
  ["intro text\n".data, "\nmiddle one\n".data, "\nmiddle two\n".data,
   "\nmiddle three\n".data, "\nfinal text".data]

def witnessBlocks : List (List Char) :=
  [wfBlockA, badBlockSyntax, badBlockNoKey, wfBlockB]

/-- Witness for C3: the rendered response with K = 2 well-formed and
M = 2 malformed blocks yields exactly the two object values in source
order. -/
theorem parse_tool_calls_wellformed_blocks_witness :
    witnessFillers.length = witnessBlocks.length + 1 ∧
    (∀ f ∈ witnessFillers, noTick f = true) ∧
    (∀ c ∈ witnessBlocks, cleanBlock c = true) ∧
    (∀ c ∈ witnessBlocks, blockAdmissible c = true) ∧
    parse_tool_calls (render witnessFillers witnessBlocks)
      = Except.ok (witnessBlocks.filterMap keepBlock) ∧
    witnessBlocks.filterMap keepBlock
      = [Json.obj [("tool".data, Json.str "read".data),
                   ("path".data, Json.str "/a".data)],
         Json.obj [("tool".data, Json.str "write".data)]] := by
  refine ⟨rfl, by decide, by decide, by decide, ?_, rfl⟩
  exact parse_tool_calls_wellformed_blocks witnessFillers witnessBlocks
    rfl (by decide) (by decide) (by decide)

end Camel
